import Mathlib

/-!
Verification of the matching and scoring engine of the Smart Resume
Analysis repository.

The definitions below are a shallow embedding of the Python sources:

* `src/src/matching/similarity_scorer.py` — `calculate_skill_match`,
  `get_recommendation`, `calculate_match_score`;
* `src/src/feature_engineering/vectorizer.py` — `calculate_cosine_similarity`;
* `src/src/matching/explainer.py` — `generate_skill_gap_analysis`;
* `src/src/matching/multi_job_matcher.py` — `compare_resume_to_jobs`;
* `src/src/pipeline/batch_processor.py` — `batch_process_resumes`;
* `src/config/settings.py` — the weight and threshold tables.

Python floats are idealised as exact rationals (for the skill-matching
arithmetic, whose constants and the claims' expected values are exact)
and as real numbers (for the vector arithmetic, which needs square
roots).  External collaborators (the screening pipeline, the file
system) are modelled as explicit function parameters, and a raised
Python exception is an `Except.error` value.
-/

/-- Python's `str.lower()` on a skill name, applied character by
character (the names involved are ASCII; `String.toLower` itself is
defined by well-founded recursion, which blocks kernel evaluation,
so the embedding lowers the underlying character list directly). -/
def pyLower (s : String) : String := String.mk (s.data.map Char.toLower)

/-- A job's required-skill entry, the dictionaries
`{'skill_name': ..., 'importance': ...}` consumed by
`calculate_skill_match`.  The source reads both keys with `.get`
(`skill_name` defaulting to `''`, `importance` to `'preferred'`); a
dictionary missing a key is modelled by a field holding that default. -/
structure SkillRequirement where
  skill_name : String
  importance : String
  deriving DecidableEq, Repr

/-- The fixed table `SKILL_IMPORTANCE_WEIGHTS` of `src/config/settings.py`,
as read by `SKILL_IMPORTANCE_WEIGHTS.get(importance, 0.6)`: the final
branch is the dictionary-lookup default for an unknown importance. -/
def SKILL_IMPORTANCE_WEIGHTS (importance : String) : ℚ :=
  if importance = "critical" then 1
  else if importance = "preferred" then 3/5
  else if importance = "nice-to-have" then 3/10
  else 3/5

/-- The `for req_skill in required_skills` loop of `calculate_skill_match`
(`src/src/matching/similarity_scorer.py`, lines 106–121), returning
`(weighted_sum, total_weight, matched_skills, missing_skills)`.  The
structural recursion processes the head first, which produces the same
sums and the same requirement-ordered lists as the Python loop's
`append`s. -/
def skillMatchLoop (resume_skills_lower : List String) :
    List SkillRequirement → ℚ × ℚ × List String × List SkillRequirement
  | [] => (0, 0, [], [])
  | req :: rest =>
    let weight := SKILL_IMPORTANCE_WEIGHTS req.importance
    let r := skillMatchLoop resume_skills_lower rest
    if pyLower req.skill_name ∈ resume_skills_lower then
      (weight + r.1, weight + r.2.1, req.skill_name :: r.2.2.1, r.2.2.2)
    else
      (r.1, weight + r.2.1, r.2.2.1, req :: r.2.2.2)

/-- `calculate_skill_match` of `src/src/matching/similarity_scorer.py`:
an empty requirement list returns `(1.0, [], [])`; otherwise the loop
accumulates importance weights over the requirements and the score is
`weighted_sum / total_weight` when `total_weight > 0`, else `0.0`.  The
membership test lowercases both sides (`skill_name.lower() in
resume_skills_lower`); the function consults no synonym table. -/
def calculate_skill_match (resume_skills : List String)
    (required_skills : List SkillRequirement) :
    ℚ × List String × List SkillRequirement :=
  if required_skills = [] then (1, [], [])
  else
    let resume_skills_lower := resume_skills.map pyLower
    let r := skillMatchLoop resume_skills_lower required_skills
    (if 0 < r.2.1 then r.1 / r.2.1 else 0, r.2.2.1, r.2.2.2)

/-- The membership condition of `calculate_skill_match`, as a `Bool`. -/
def skillMatched (resume_skills : List String) (req : SkillRequirement) : Bool :=
  decide (pyLower req.skill_name ∈ resume_skills.map pyLower)

theorem skillMatchLoop_eq (L : List String) (reqs : List SkillRequirement) :
    skillMatchLoop L reqs =
      (((reqs.filter fun r => decide (pyLower r.skill_name ∈ L)).map
          fun r => SKILL_IMPORTANCE_WEIGHTS r.importance).sum,
       ((reqs.map fun r => SKILL_IMPORTANCE_WEIGHTS r.importance).sum),
       (reqs.filter fun r => decide (pyLower r.skill_name ∈ L)).map
          (fun r => r.skill_name),
       reqs.filter fun r => !decide (pyLower r.skill_name ∈ L)) := by
  induction reqs with
  | nil => simp [skillMatchLoop]
  | cons req rest ih =>
    by_cases h : pyLower req.skill_name ∈ L
    · simp [skillMatchLoop, ih, h, List.filter_cons]
    · simp [skillMatchLoop, ih, h, List.filter_cons]

theorem SKILL_IMPORTANCE_WEIGHTS_pos (importance : String) :
    0 < SKILL_IMPORTANCE_WEIGHTS importance := by
  unfold SKILL_IMPORTANCE_WEIGHTS
  split_ifs <;> norm_num

theorem total_weight_pos (reqs : List SkillRequirement) (h : reqs ≠ []) :
    0 < ((reqs.map fun r => SKILL_IMPORTANCE_WEIGHTS r.importance).sum) := by
  cases reqs with
  | nil => exact absurd rfl h
  | cons r rest =>
    simp only [List.map_cons, List.sum_cons]
    have h1 := SKILL_IMPORTANCE_WEIGHTS_pos r.importance
    have h2 : 0 ≤ (rest.map fun r => SKILL_IMPORTANCE_WEIGHTS r.importance).sum :=
      List.sum_nonneg (by
        intro x hx
        obtain ⟨r', _, rfl⟩ := List.mem_map.mp hx
        exact (SKILL_IMPORTANCE_WEIGHTS_pos r'.importance).le)
    linarith

/-- The characterisation of `calculate_skill_match` on a non-empty
requirement list, used by the claim theorems below. -/
theorem calculate_skill_match_eq (resume_skills : List String)
    (required_skills : List SkillRequirement) (h : required_skills ≠ []) :
    calculate_skill_match resume_skills required_skills =
      (((required_skills.filter (skillMatched resume_skills)).map
          fun r => SKILL_IMPORTANCE_WEIGHTS r.importance).sum /
        ((required_skills.map fun r => SKILL_IMPORTANCE_WEIGHTS r.importance).sum),
       (required_skills.filter (skillMatched resume_skills)).map
          (fun r => r.skill_name),
       required_skills.filter fun r => !skillMatched resume_skills r) := by
  unfold calculate_skill_match skillMatched
  rw [if_neg h]
  simp only [skillMatchLoop_eq]
  rw [if_pos (total_weight_pos required_skills h)]

/-- C1: `calculate_skill_match` compares only lower-cased literal names:
no synonym table is consulted, so the candidate skill `ReactJS` does not
match the requirement `React` and the returned score is `0.0`, not the
`1.0` that the specification and the repository's own synonym test
(`tests/test_feature_engineering/test_synonym_matching.py`,
`TestSynonymSkillMatching`) require. -/
theorem c1_synonym_not_resolved_in_scorer :
    calculate_skill_match ["ReactJS"] [⟨"React", "critical"⟩] =
      (0, [], [⟨"React", "critical"⟩]) := by
  rw [calculate_skill_match_eq _ _ (by decide)]
  have hm : skillMatched ["ReactJS"] ⟨"React", "critical"⟩ = false := by decide
  simp [List.filter_cons, hm, SKILL_IMPORTANCE_WEIGHTS]

/-- C3: on a non-empty requirement list the skill-match score is the
weighted hit-rate — the sum of importance weights of the matched
requirements divided by the sum of importance weights of all
requirements — with the fixed weight table critical = 1, preferred = 0.6,
nice-to-have = 0.3 and any unknown importance defaulting to 0.6, and the
matched and missing sequences are requirement-order-preserving
sublists (filters) of the requirement list. -/
theorem c3_skill_match_weighted_hit_rate (resume_skills : List String)
    (required_skills : List SkillRequirement) (h : required_skills ≠ []) :
    SKILL_IMPORTANCE_WEIGHTS "critical" = 1 ∧
    SKILL_IMPORTANCE_WEIGHTS "preferred" = 3/5 ∧
    SKILL_IMPORTANCE_WEIGHTS "nice-to-have" = 3/10 ∧
    (∀ imp : String, imp ≠ "critical" → imp ≠ "preferred" →
      imp ≠ "nice-to-have" → SKILL_IMPORTANCE_WEIGHTS imp = 3/5) ∧
    calculate_skill_match resume_skills required_skills =
      (((required_skills.filter (skillMatched resume_skills)).map
          fun r => SKILL_IMPORTANCE_WEIGHTS r.importance).sum /
        ((required_skills.map fun r => SKILL_IMPORTANCE_WEIGHTS r.importance).sum),
       (required_skills.filter (skillMatched resume_skills)).map
          (fun r => r.skill_name),
       required_skills.filter fun r => !skillMatched resume_skills r) := by
  refine ⟨rfl, rfl, rfl, ?_, calculate_skill_match_eq _ _ h⟩
  intro imp h1 h2 h3
  simp [SKILL_IMPORTANCE_WEIGHTS, h1, h2, h3]

/-- Witness for C3: the specification's end-to-end example, `score =
1.0 / 1.6 = 0.625` with `Python` matched and `AWS` missing. -/
theorem c3_witness_example :
    calculate_skill_match ["Python", "React", "Machine Learning"]
        [⟨"Python", "critical"⟩, ⟨"AWS", "preferred"⟩] =
      (5/8, ["Python"], [⟨"AWS", "preferred"⟩]) := by
  have h := (c3_skill_match_weighted_hit_rate
    ["Python", "React", "Machine Learning"]
    [⟨"Python", "critical"⟩, ⟨"AWS", "preferred"⟩] (by decide)).2.2.2.2
  rw [h]
  have h1 : skillMatched ["Python", "React", "Machine Learning"]
      ⟨"Python", "critical"⟩ = true := by decide
  have h2 : skillMatched ["Python", "React", "Machine Learning"]
      ⟨"AWS", "preferred"⟩ = false := by decide
  simp [List.filter_cons, h1, h2, SKILL_IMPORTANCE_WEIGHTS]
  norm_num

/-- One insertion into the Python dict comprehension
`{s.lower(): s for s in resume_skills}` (`generate_skill_gap_analysis`,
`src/src/matching/explainer.py` line 101): an existing key keeps its
position and takes the new value, a new key is appended. -/
def dictInsert (d : List (String × String)) (k v : String) :
    List (String × String) :=
  if d.any (fun p => p.1 = k) then
    d.map (fun p => if p.1 = k then (k, v) else p)
  else d ++ [(k, v)]

/-- The dict `resume_skills_lower = {s.lower(): s for s in resume_skills}`
of `generate_skill_gap_analysis`, as an association list with Python's
insertion-order semantics. -/
def resumeSkillsLowerDict (resume_skills : List String) :
    List (String × String) :=
  resume_skills.foldl (fun d s => dictInsert d (pyLower s) s) []

/-- The seven-bucket report built by `generate_skill_gap_analysis`
(`src/src/matching/explainer.py`). -/
structure SkillGapAnalysis where
  critical_matched : List String
  critical_missing : List String
  preferred_matched : List String
  preferred_missing : List String
  nice_to_have_matched : List String
  nice_to_have_missing : List String
  extra_skills : List String
  deriving DecidableEq, Repr

/-- The `for req in required_skills` loop of `generate_skill_gap_analysis`
(lines 115–133): each requirement is appended to the matched or missing
bucket of its importance tier (`critical`, `preferred`, anything else to
nice-to-have), matched against the dict's keys — the lower-cased resume
skill names.  The head-first recursion builds the same
requirement-ordered buckets as the Python loop's `append`s. -/
def gapLoop (resume_lower_keys : List String) :
    List SkillRequirement → SkillGapAnalysis
  | [] => ⟨[], [], [], [], [], [], []⟩
  | req :: rest =>
    let a := gapLoop resume_lower_keys rest
    if pyLower req.skill_name ∈ resume_lower_keys then
      if req.importance = "critical" then
        { a with critical_matched := req.skill_name :: a.critical_matched }
      else if req.importance = "preferred" then
        { a with preferred_matched := req.skill_name :: a.preferred_matched }
      else
        { a with nice_to_have_matched := req.skill_name :: a.nice_to_have_matched }
    else
      if req.importance = "critical" then
        { a with critical_missing := req.skill_name :: a.critical_missing }
      else if req.importance = "preferred" then
        { a with preferred_missing := req.skill_name :: a.preferred_missing }
      else
        { a with nice_to_have_missing := req.skill_name :: a.nice_to_have_missing }

/-- `generate_skill_gap_analysis` of `src/src/matching/explainer.py`:
bucket every requirement, then collect `extra_skills`: the values of the
resume dict whose key is not among the lower-cased required names. -/
def generate_skill_gap_analysis (resume_skills : List String)
    (required_skills : List SkillRequirement) : SkillGapAnalysis :=
  let dict := resumeSkillsLowerDict resume_skills
  let keys := dict.map (fun p => p.1)
  let required_skills_lower := required_skills.map (fun r => pyLower r.skill_name)
  let a := gapLoop keys required_skills
  let extra :=
    (dict.filter (fun p => decide (p.1 ∉ required_skills_lower))).map
      (fun p => p.2)
  { a with extra_skills := extra }

/-- The matched bucket of a requirement's importance tier, following the
`if importance == 'critical' ... elif ... else` chain of the source. -/
def matchedBucket (a : SkillGapAnalysis) (importance : String) : List String :=
  if importance = "critical" then a.critical_matched
  else if importance = "preferred" then a.preferred_matched
  else a.nice_to_have_matched

theorem dictInsert_keys (d : List (String × String)) (k v x : String) :
    x ∈ (dictInsert d k v).map Prod.fst ↔ x ∈ d.map Prod.fst ∨ x = k := by
  unfold dictInsert
  split
  next hAny =>
    obtain ⟨p0, hp0, hp0k⟩ := List.any_eq_true.mp hAny
    replace hp0k : p0.1 = k := of_decide_eq_true hp0k
    simp only [List.map_map, List.mem_map, Function.comp]
    constructor
    · rintro ⟨p, hp, hx⟩
      by_cases hpk : p.1 = k
      · rw [if_pos hpk] at hx
        exact Or.inr hx.symm
      · rw [if_neg hpk] at hx
        exact Or.inl ⟨p, hp, hx⟩
    · rintro (⟨p, hp, hx⟩ | hxk)
      · by_cases hpk : p.1 = k
        · exact ⟨p, hp, by rw [if_pos hpk]; exact hpk.symm.trans hx⟩
        · exact ⟨p, hp, by rw [if_neg hpk]; exact hx⟩
      · exact ⟨p0, hp0, by rw [if_pos hp0k]; exact hxk.symm⟩
  next hAny =>
    simp [List.mem_append]

theorem resumeDict_keys (resume_skills : List String) (x : String) :
    x ∈ (resumeSkillsLowerDict resume_skills).map Prod.fst ↔
      x ∈ resume_skills.map pyLower := by
  suffices hgen : ∀ d : List (String × String),
      x ∈ (resume_skills.foldl (fun d s => dictInsert d (pyLower s) s) d).map Prod.fst ↔
        x ∈ d.map Prod.fst ∨ x ∈ resume_skills.map pyLower by
    have h := hgen []
    simpa [resumeSkillsLowerDict] using h
  induction resume_skills with
  | nil => intro d; simp
  | cons s rest ih =>
    intro d
    rw [List.foldl_cons, ih, dictInsert_keys]
    simp only [List.map_cons, List.mem_cons]
    tauto

theorem skillMatched_iff (resume_skills : List String) (req : SkillRequirement) :
    skillMatched resume_skills req = true ↔
      pyLower req.skill_name ∈ resume_skills.map pyLower := by
  simp [skillMatched]

theorem gapLoop_critical_matched (keys : List String)
    (reqs : List SkillRequirement) :
    (gapLoop keys reqs).critical_matched =
      (reqs.filter fun r =>
        decide (pyLower r.skill_name ∈ keys) && decide (r.importance = "critical")).map
        (fun r => r.skill_name) := by
  induction reqs with
  | nil => simp [gapLoop]
  | cons req rest ih =>
    by_cases hc : req.importance = "critical" <;>
      by_cases hp : req.importance = "preferred"
    · exact absurd (hc.symm.trans hp) (by decide)
    all_goals by_cases hm : pyLower req.skill_name ∈ keys <;>
      simp [gapLoop, hm, hc, hp, List.filter_cons, ih]

theorem gapLoop_preferred_matched (keys : List String)
    (reqs : List SkillRequirement) :
    (gapLoop keys reqs).preferred_matched =
      (reqs.filter fun r =>
        decide (pyLower r.skill_name ∈ keys) && decide (r.importance = "preferred")).map
        (fun r => r.skill_name) := by
  induction reqs with
  | nil => simp [gapLoop]
  | cons req rest ih =>
    by_cases hc : req.importance = "critical" <;>
      by_cases hp : req.importance = "preferred"
    · exact absurd (hc.symm.trans hp) (by decide)
    all_goals by_cases hm : pyLower req.skill_name ∈ keys <;>
      simp [gapLoop, hm, hc, hp, List.filter_cons, ih]

theorem gapLoop_nice_to_have_matched (keys : List String)
    (reqs : List SkillRequirement) :
    (gapLoop keys reqs).nice_to_have_matched =
      (reqs.filter fun r =>
        decide (pyLower r.skill_name ∈ keys) &&
          (!decide (r.importance = "critical") &&
            !decide (r.importance = "preferred"))).map
        (fun r => r.skill_name) := by
  induction reqs with
  | nil => simp [gapLoop]
  | cons req rest ih =>
    by_cases hc : req.importance = "critical" <;>
      by_cases hp : req.importance = "preferred"
    · exact absurd (hc.symm.trans hp) (by decide)
    all_goals by_cases hm : pyLower req.skill_name ∈ keys <;>
      simp [gapLoop, hm, hc, hp, List.filter_cons, ih]

/-- C6: the gap analysis and the scorer agree on matching.  A
requirement is placed in the matched bucket of its importance tier by
`generate_skill_gap_analysis` exactly when `calculate_skill_match`
reports its name in the matched list: both passes decide matching by
the identical rule — lower-cased literal name membership in the
lower-cased resume skills (and neither consults a synonym table). -/
theorem c6_gap_analysis_agrees_with_scorer (resume_skills : List String)
    (required_skills : List SkillRequirement) (req : SkillRequirement)
    (h : req ∈ required_skills) :
    (req.skill_name ∈
        matchedBucket (generate_skill_gap_analysis resume_skills required_skills)
          req.importance) ↔
      req.skill_name ∈ (calculate_skill_match resume_skills required_skills).2.1 := by
  have hne : required_skills ≠ [] := List.ne_nil_of_mem h
  rw [calculate_skill_match_eq _ _ hne]
  have hkeys : ∀ y, (∃ a ∈ resumeSkillsLowerDict resume_skills, a.1 = y) ↔
      y ∈ resume_skills.map pyLower := fun y =>
    List.mem_map.symm.trans (resumeDict_keys resume_skills y)
  unfold generate_skill_gap_analysis
  simp only []
  constructor
  · intro hl
    by_cases hc : req.importance = "critical"
    · rw [matchedBucket, if_pos hc, gapLoop_critical_matched] at hl
      simp only [List.mem_map, List.mem_filter, Bool.and_eq_true,
        decide_eq_true_eq] at hl
      obtain ⟨r, ⟨hr, hmem, _⟩, hname⟩ := hl
      simp only [List.mem_map, List.mem_filter]
      exact ⟨r, ⟨hr, (skillMatched_iff _ _).mpr ((hkeys _).mp hmem)⟩, hname⟩
    · by_cases hp : req.importance = "preferred"
      · rw [matchedBucket, if_neg hc, if_pos hp, gapLoop_preferred_matched] at hl
        simp only [List.mem_map, List.mem_filter, Bool.and_eq_true,
          decide_eq_true_eq] at hl
        obtain ⟨r, ⟨hr, hmem, _⟩, hname⟩ := hl
        simp only [List.mem_map, List.mem_filter]
        exact ⟨r, ⟨hr, (skillMatched_iff _ _).mpr ((hkeys _).mp hmem)⟩, hname⟩
      · rw [matchedBucket, if_neg hc, if_neg hp, gapLoop_nice_to_have_matched] at hl
        simp only [List.mem_map, List.mem_filter, Bool.and_eq_true,
          decide_eq_true_eq] at hl
        obtain ⟨r, ⟨hr, hmem, _⟩, hname⟩ := hl
        simp only [List.mem_map, List.mem_filter]
        exact ⟨r, ⟨hr, (skillMatched_iff _ _).mpr ((hkeys _).mp hmem)⟩, hname⟩
  · intro hr
    simp only [List.mem_map, List.mem_filter] at hr
    obtain ⟨r, ⟨hrmem, hrmatch⟩, hname⟩ := hr
    have hreqmem : ∃ a ∈ resumeSkillsLowerDict resume_skills,
        a.1 = pyLower req.skill_name := by
      rw [hkeys]
      have := (skillMatched_iff _ _).mp hrmatch
      rw [hname] at this
      exact this
    by_cases hc : req.importance = "critical"
    · rw [matchedBucket, if_pos hc, gapLoop_critical_matched]
      simp only [List.mem_map, List.mem_filter, Bool.and_eq_true,
        decide_eq_true_eq]
      exact ⟨req, ⟨h, hreqmem, hc⟩, rfl⟩
    · by_cases hp : req.importance = "preferred"
      · rw [matchedBucket, if_neg hc, if_pos hp, gapLoop_preferred_matched]
        simp only [List.mem_map, List.mem_filter, Bool.and_eq_true,
          decide_eq_true_eq]
        exact ⟨req, ⟨h, hreqmem, hp⟩, rfl⟩
      · rw [matchedBucket, if_neg hc, if_neg hp, gapLoop_nice_to_have_matched]
        simp only [List.mem_map, List.mem_filter, Bool.and_eq_true,
          Bool.not_eq_true', decide_eq_false_iff_not, decide_eq_true_eq]
        exact ⟨req, ⟨h, hreqmem, hc, hp⟩, rfl⟩

/-- Witness for C6 at a concrete input: `Python` (lower-cased in the
resume) is both in the critical matched bucket and in the scorer's
matched list. -/
theorem c6_witness_concrete :
    (("Python" : String) ∈
        matchedBucket (generate_skill_gap_analysis ["python"] [⟨"Python", "critical"⟩])
          "critical") ↔
      ("Python" : String) ∈ (calculate_skill_match ["python"] [⟨"Python", "critical"⟩]).2.1 :=
  c6_gap_analysis_agrees_with_scorer ["python"] [⟨"Python", "critical"⟩]
    ⟨"Python", "critical"⟩ (by decide)

/-- The dot product `np.dot` on equal-length vectors. -/
def dot (vec1 vec2 : List ℝ) : ℝ := (List.zipWith (fun x y => x * y) vec1 vec2).sum

/-- The L2 norm `np.linalg.norm`. -/
noncomputable def l2norm (vec : List ℝ) : ℝ :=
  Real.sqrt ((vec.map (fun x => x ^ 2)).sum)

/-- `calculate_cosine_similarity` of
`src/src/feature_engineering/vectorizer.py` (the `None` guard of the
Python source is a typed impossibility here): if either norm is `0` the
result is `0.0`, otherwise `dot / (norm1 * norm2)` clamped into `[0, 1]`
by `max(0.0, min(1.0, similarity))`. -/
noncomputable def calculate_cosine_similarity (vec1 vec2 : List ℝ) : ℝ :=
  let norm1 := l2norm vec1
  let norm2 := l2norm vec2
  if norm1 = 0 ∨ norm2 = 0 then 0
  else
    let similarity := dot vec1 vec2 / (norm1 * norm2)
    max 0 (min 1 similarity)

theorem cosine_nonneg (vec1 vec2 : List ℝ) :
    0 ≤ calculate_cosine_similarity vec1 vec2 := by
  simp only [calculate_cosine_similarity]
  split
  · exact le_rfl
  · exact le_max_left 0 _

theorem cosine_le_one (vec1 vec2 : List ℝ) :
    calculate_cosine_similarity vec1 vec2 ≤ 1 := by
  simp only [calculate_cosine_similarity]
  split
  · exact zero_le_one
  · exact max_le zero_le_one (min_le_left 1 _)

theorem sumsq_nonneg (vec : List ℝ) : 0 ≤ (vec.map (fun x => x ^ 2)).sum :=
  List.sum_nonneg (by
    intro x hx
    obtain ⟨y, _, rfl⟩ := List.mem_map.mp hx
    positivity)

theorem l2norm_eq_zero_iff (vec : List ℝ) :
    l2norm vec = 0 ↔ (vec.map (fun x => x ^ 2)).sum = 0 := by
  unfold l2norm
  exact Real.sqrt_eq_zero (sumsq_nonneg vec)

/-- C4: the zero-norm guard of `calculate_cosine_similarity` — if either
vector has vanishing sum of squares (equivalently, zero L2 norm, the
all-zero-vector case) the result is exactly `0.0` rather than a
division by zero, and otherwise the result is `dot / (‖a‖ · ‖b‖)`
clamped into `[0, 1]`; in every case the result is a well-defined real
number in `[0, 1]`. -/
theorem c4_cosine_zero_guard_and_clamp (a b : List ℝ) (_hlen : a.length = b.length) :
    (((a.map (fun x => x ^ 2)).sum = 0 ∨ (b.map (fun x => x ^ 2)).sum = 0) →
        calculate_cosine_similarity a b = 0) ∧
    ((a.map (fun x => x ^ 2)).sum ≠ 0 → (b.map (fun x => x ^ 2)).sum ≠ 0 →
        calculate_cosine_similarity a b =
          max 0 (min 1 (dot a b / (l2norm a * l2norm b)))) ∧
    (0 ≤ calculate_cosine_similarity a b ∧ calculate_cosine_similarity a b ≤ 1) := by
  refine ⟨?_, ?_, cosine_nonneg a b, cosine_le_one a b⟩
  · intro h
    simp only [calculate_cosine_similarity]
    rw [if_pos]
    rcases h with h | h
    · exact Or.inl ((l2norm_eq_zero_iff a).mpr h)
    · exact Or.inr ((l2norm_eq_zero_iff b).mpr h)
  · intro ha hb
    simp only [calculate_cosine_similarity]
    rw [if_neg]
    push_neg
    exact ⟨fun hz => ha ((l2norm_eq_zero_iff a).mp hz),
      fun hz => hb ((l2norm_eq_zero_iff b).mp hz)⟩

/-- Witness for C4 at concrete vectors: `[0, 0]` against `[1, 2]` hits
the zero-norm guard, and `[3, 4]` against itself hits the general
branch, evaluating to `1`. -/
theorem c4_witness_concrete :
    calculate_cosine_similarity [0, 0] [1, 2] = 0 ∧
    calculate_cosine_similarity [3, 4] [3, 4] = 1 := by
  constructor
  · exact (c4_cosine_zero_guard_and_clamp [0, 0] [1, 2] rfl).1
      (Or.inl (by norm_num))
  · have h := (c4_cosine_zero_guard_and_clamp [3, 4] [3, 4] rfl).2.1
      (by norm_num) (by norm_num)
    rw [h]
    have hn : l2norm [3, 4] = 5 := by
      unfold l2norm
      rw [show (([3, 4] : List ℝ).map (fun x => x ^ 2)).sum = 5 ^ 2 by norm_num]
      exact Real.sqrt_sq (by norm_num)
    rw [hn]
    have hd : dot [3, 4] [3, 4] = 25 := by
      unfold dot
      norm_num
    rw [hd]
    norm_num

/-- Python's `round(x, 3)` idealised over the reals: round to the
nearest thousandth (`round` here rounds half up; Python's float `round`
is half-even on binary floats — the tie rule is immaterial to every
claim below). -/
noncomputable def round3 (x : ℝ) : ℝ := ((round (x * 1000) : ℤ) : ℝ) / 1000

/-- Python's `round(q, 3)` for the rational-valued skill sub-score. -/
def round3q (q : ℚ) : ℚ := ((round (q * 1000) : ℤ) : ℚ) / 1000

/-- The optional `weights` mapping of `calculate_match_score`: the two
fields are what `weights.get('skill_match', 0.5)` and
`weights.get('semantic_similarity', 0.5)` read. -/
structure Weights where
  skill_match : ℝ
  semantic_similarity : ℝ

/-- `SCORING_WEIGHTS` of `src/config/settings.py`, the default weights. -/
noncomputable def SCORING_WEIGHTS : Weights := ⟨1/2, 1/2⟩

/-- `MATCH_THRESHOLDS` of `src/config/settings.py`. -/
noncomputable def MATCH_THRESHOLDS (band : String) : ℝ :=
  if band = "strong-match" then 3/4
  else if band = "good-match" then 11/20
  else if band = "weak-match" then 7/20
  else 0

/-- `get_recommendation` of `src/src/matching/similarity_scorer.py`:
the threshold chain evaluated highest-first with `>=` comparisons. -/
noncomputable def get_recommendation (score : ℝ) : String :=
  if MATCH_THRESHOLDS "strong-match" ≤ score then "strong-match"
  else if MATCH_THRESHOLDS "good-match" ≤ score then "good-match"
  else if MATCH_THRESHOLDS "weak-match" ≤ score then "weak-match"
  else "no-match"

theorem MATCH_THRESHOLDS_strong : MATCH_THRESHOLDS "strong-match" = 3/4 := rfl

theorem MATCH_THRESHOLDS_good : MATCH_THRESHOLDS "good-match" = 11/20 := rfl

theorem MATCH_THRESHOLDS_weak : MATCH_THRESHOLDS "weak-match" = 7/20 := rfl

theorem get_recommendation_strong_iff (s : ℝ) :
    get_recommendation s = "strong-match" ↔ 3/4 ≤ s := by
  unfold get_recommendation
  rw [MATCH_THRESHOLDS_strong, MATCH_THRESHOLDS_good, MATCH_THRESHOLDS_weak]
  split_ifs with h1 h2 h3
  · exact iff_of_true rfl h1
  · exact iff_of_false (by decide) h1
  · exact iff_of_false (by decide) h1
  · exact iff_of_false (by decide) h1

theorem get_recommendation_good_iff (s : ℝ) :
    get_recommendation s = "good-match" ↔ 11/20 ≤ s ∧ s < 3/4 := by
  unfold get_recommendation
  rw [MATCH_THRESHOLDS_strong, MATCH_THRESHOLDS_good, MATCH_THRESHOLDS_weak]
  split_ifs with h1 h2 h3
  · exact iff_of_false (by decide) (fun hc => absurd hc.2 (not_lt.mpr h1))
  · exact iff_of_true rfl ⟨h2, not_le.mp h1⟩
  · exact iff_of_false (by decide) (fun hc => absurd hc.1 h2)
  · exact iff_of_false (by decide) (fun hc => absurd hc.1 h2)

theorem get_recommendation_weak_iff (s : ℝ) :
    get_recommendation s = "weak-match" ↔ 7/20 ≤ s ∧ s < 11/20 := by
  unfold get_recommendation
  rw [MATCH_THRESHOLDS_strong, MATCH_THRESHOLDS_good, MATCH_THRESHOLDS_weak]
  split_ifs with h1 h2 h3
  · refine iff_of_false (by decide) (fun hc => absurd hc.2 (not_lt.mpr ?_))
    linarith
  · exact iff_of_false (by decide) (fun hc => absurd hc.2 (not_lt.mpr h2))
  · exact iff_of_true rfl ⟨h3, not_le.mp h2⟩
  · exact iff_of_false (by decide) (fun hc => absurd hc.1 h3)

theorem get_recommendation_no_iff (s : ℝ) :
    get_recommendation s = "no-match" ↔ s < 7/20 := by
  unfold get_recommendation
  rw [MATCH_THRESHOLDS_strong, MATCH_THRESHOLDS_good, MATCH_THRESHOLDS_weak]
  split_ifs with h1 h2 h3
  · refine iff_of_false (by decide) (not_lt.mpr ?_)
    linarith
  · refine iff_of_false (by decide) (not_lt.mpr ?_)
    linarith
  · exact iff_of_false (by decide) (not_lt.mpr h3)
  · exact iff_of_true rfl (not_le.mp h3)

/-- The `MatchResult`-shaped dictionary built by `calculate_match_score`
(`match_id`, `resume_id`, `job_id` and `timestamp` are request-scoped
identifiers with no algorithmic content and are not modelled). -/
structure MatchScoreResult where
  overall_score : ℝ
  skill_match : ℚ
  semantic_similarity : ℝ
  matched_skills : List String
  missing_skills : List SkillRequirement
  recommendation : String

/-- `calculate_match_score` of `src/src/matching/similarity_scorer.py`:
dimension validation first (the raised `ValueError` is an `.error`),
then cosine similarity, skill matching, the weighted overall score with
no renormalisation of the caller's weights, the recommendation computed
from the un-rounded overall score, and the result carrying the scores
rounded to three decimals. -/
noncomputable def calculate_match_score (resume_vector job_vector : List ℝ)
    (resume_skills : List String) (required_skills : List SkillRequirement)
    (weights : Weights := SCORING_WEIGHTS) : Except String MatchScoreResult :=
  if resume_vector.length ≠ 300 ∨ job_vector.length ≠ 300 then
    .error "INVALID_VECTOR_DIMENSION: Vectors must be 300-dimensional"
  else
    let semantic_similarity := calculate_cosine_similarity resume_vector job_vector
    let skillResult := calculate_skill_match resume_skills required_skills
    let overall_score : ℝ :=
      (skillResult.1 : ℝ) * weights.skill_match +
        semantic_similarity * weights.semantic_similarity
    .ok { overall_score := round3 overall_score
          skill_match := round3q skillResult.1
          semantic_similarity := round3 semantic_similarity
          matched_skills := skillResult.2.1
          missing_skills := skillResult.2.2
          recommendation := get_recommendation overall_score }

theorem skill_match_score_nonneg (resume_skills : List String)
    (required_skills : List SkillRequirement) :
    0 ≤ (calculate_skill_match resume_skills required_skills).1 := by
  by_cases h : required_skills = []
  · subst h
    norm_num [calculate_skill_match]
  · rw [calculate_skill_match_eq _ _ h]
    refine div_nonneg ?_ (total_weight_pos _ h).le
    exact List.sum_nonneg (by
      intro x hx
      obtain ⟨r, _, rfl⟩ := List.mem_map.mp hx
      exact (SKILL_IMPORTANCE_WEIGHTS_pos r.importance).le)

theorem skill_match_score_le_one (resume_skills : List String)
    (required_skills : List SkillRequirement) :
    (calculate_skill_match resume_skills required_skills).1 ≤ 1 := by
  by_cases h : required_skills = []
  · subst h
    norm_num [calculate_skill_match]
  · rw [calculate_skill_match_eq _ _ h]
    rw [div_le_one (total_weight_pos _ h)]
    refine List.Sublist.sum_le_sum ?_ ?_
    · exact List.Sublist.map _ (List.filter_sublist required_skills)
    · intro x hx
      obtain ⟨r, _, rfl⟩ := List.mem_map.mp hx
      exact (SKILL_IMPORTANCE_WEIGHTS_pos r.importance).le

theorem round3_bounds {x : ℝ} (h0 : 0 ≤ x) (h1 : x ≤ 1) :
    0 ≤ round3 x ∧ round3 x ≤ 1 := by
  unfold round3
  have hb := abs_sub_round (x * 1000)
  have hb' := abs_sub_le_iff.mp hb
  have hge : (-1 : ℝ) < ((round (x * 1000) : ℤ) : ℝ) := by
    nlinarith [hb'.1, hb'.2]
  have hle : ((round (x * 1000) : ℤ) : ℝ) < 1001 := by
    nlinarith [hb'.1, hb'.2]
  have hzge : (0 : ℤ) ≤ round (x * 1000) := by
    have : (-1 : ℤ) < round (x * 1000) := by exact_mod_cast hge
    omega
  have hzle : round (x * 1000) ≤ 1000 := by
    have : round (x * 1000) < 1001 := by exact_mod_cast hle
    omega
  constructor
  · positivity
  · rw [div_le_one (by norm_num : (0:ℝ) < 1000)]
    exact_mod_cast hzle

/-- C2 (amended): with weights whose two components are nonnegative and
sum to at most 1 — the default `skill_match = semantic_similarity = 0.5`
included — every successfully computed `overall_score` lies in
`[0, 1]`; and the recommendation label follows the inclusive-lower-bound
thresholds evaluated highest-first (`≥ 0.75` strong, `[0.55, 0.75)`
good, `[0.35, 0.55)` weak, `< 0.35` no-match), the four bands
partitioning the score line with no gaps or overlaps.  The amendment
restricts the caller weights: `calculate_match_score` renormalises
nothing, so arbitrary caller weights escape `[0, 1]` (see the
counterexample). -/
theorem c2_overall_score_unit_interval_and_bands (w : Weights)
    (hw1 : 0 ≤ w.skill_match) (hw2 : 0 ≤ w.semantic_similarity)
    (hwsum : w.skill_match + w.semantic_similarity ≤ 1)
    (resume_vector job_vector : List ℝ) (resume_skills : List String)
    (required_skills : List SkillRequirement) (r : MatchScoreResult)
    (hok : calculate_match_score resume_vector job_vector resume_skills
      required_skills w = Except.ok r) :
    (0 ≤ r.overall_score ∧ r.overall_score ≤ 1) ∧
    (∀ s : ℝ,
      (get_recommendation s = "strong-match" ↔ 3/4 ≤ s) ∧
      (get_recommendation s = "good-match" ↔ 11/20 ≤ s ∧ s < 3/4) ∧
      (get_recommendation s = "weak-match" ↔ 7/20 ≤ s ∧ s < 11/20) ∧
      (get_recommendation s = "no-match" ↔ s < 7/20)) := by
  refine ⟨?_, fun s => ⟨get_recommendation_strong_iff s,
    get_recommendation_good_iff s, get_recommendation_weak_iff s,
    get_recommendation_no_iff s⟩⟩
  unfold calculate_match_score at hok
  split at hok
  · exact Except.noConfusion hok
  · rw [Except.ok.injEq] at hok
    subst hok
    have hsk1 := skill_match_score_nonneg resume_skills required_skills
    have hsk2 := skill_match_score_le_one resume_skills required_skills
    have hc1 := cosine_nonneg resume_vector job_vector
    have hc2 := cosine_le_one resume_vector job_vector
    have hq1 : (0:ℝ) ≤ ((calculate_skill_match resume_skills required_skills).1 : ℝ) := by
      exact_mod_cast hsk1
    have hq2 : ((calculate_skill_match resume_skills required_skills).1 : ℝ) ≤ 1 := by
      exact_mod_cast hsk2
    refine round3_bounds ?_ ?_
    · exact add_nonneg (mul_nonneg hq1 hw1) (mul_nonneg hc1 hw2)
    · nlinarith [hq1, hq2, hc1, hc2, hw1, hw2, hwsum]

/-- Witness for C2: the default weights satisfy the amended hypotheses
on concrete 300-dimensional zero vectors, and the boundary score 0.75
gets the strong-match label. -/
theorem c2_witness_default_weights : get_recommendation (3/4 : ℝ) = "strong-match" := by
  have hex : ∃ r, calculate_match_score (List.replicate 300 (0:ℝ))
      (List.replicate 300 (0:ℝ)) [] [] SCORING_WEIGHTS = Except.ok r := by
    unfold calculate_match_score
    rw [if_neg (by simp only [List.length_replicate, ne_eq, or_self, not_not])]
    exact ⟨_, rfl⟩
  obtain ⟨r, hok⟩ := hex
  have h := c2_overall_score_unit_interval_and_bands SCORING_WEIGHTS
    (by norm_num [SCORING_WEIGHTS]) (by norm_num [SCORING_WEIGHTS])
    (by norm_num [SCORING_WEIGHTS]) (List.replicate 300 (0:ℝ))
    (List.replicate 300 (0:ℝ)) [] [] r hok
  exact ((h.2 (3/4)).1).mpr (by norm_num)

theorem l2norm_replicate_zero (n : ℕ) : l2norm (List.replicate n (0:ℝ)) = 0 := by
  unfold l2norm
  rw [List.map_replicate]
  norm_num [List.sum_replicate]

theorem cosine_zero_vectors (n m : ℕ) :
    calculate_cosine_similarity (List.replicate n (0:ℝ)) (List.replicate m (0:ℝ)) = 0 := by
  simp only [calculate_cosine_similarity]
  rw [if_pos (Or.inl (l2norm_replicate_zero n))]

/-- Counterexample for C2 as stated: `calculate_match_score` performs
no weight renormalisation, so the caller-supplied weights
`{skill_match: 10, semantic_similarity: 10}` on a fully matched skill
list and zero vectors produce `overall_score = 10`, far outside
`[0, 1]`. -/
theorem c2_counterexample_unnormalized_weights :
    (calculate_match_score (List.replicate 300 (0:ℝ)) (List.replicate 300 (0:ℝ))
        ["python"] [⟨"python", "critical"⟩] ⟨10, 10⟩).map
        (fun r => r.overall_score) = Except.ok 10 ∧ ¬((10:ℝ) ≤ 1) := by
  constructor
  · unfold calculate_match_score
    rw [if_neg (by simp only [List.length_replicate, ne_eq, or_self, not_not])]
    simp only [Except.map]
    have hskill : (calculate_skill_match ["python"] [⟨"python", "critical"⟩]).1 = 1 := by
      rw [calculate_skill_match_eq _ _ (by decide)]
      have hm : skillMatched ["python"] ⟨"python", "critical"⟩ = true := by decide
      simp [List.filter_cons, hm, SKILL_IMPORTANCE_WEIGHTS]
    rw [Except.ok.injEq, hskill, cosine_zero_vectors]
    have : ((1:ℚ):ℝ) * (10:ℝ) + 0 * 10 = 10 := by norm_num
    rw [this]
    unfold round3
    rw [show ((10:ℝ) * 1000) = ((10000:ℤ):ℝ) by norm_num, round_intCast]
    norm_num
  · norm_num

/-- A job dictionary as consumed by `compare_resume_to_jobs`
(`src/src/matching/multi_job_matcher.py`): the fields read with `.get`;
a missing `title`/`description` is the empty string (both falsy values
collapse to it), a missing `company`/`job_id` is `none`. -/
structure Job where
  job_id : Option String
  title : String
  company : Option String
  description : String
  deriving DecidableEq, Repr

/-- The `subscores` mapping of a match result, as copied around by the
multi-job and batch rankers. -/
structure Subscores where
  skill_match : ℚ
  semantic_similarity : ℚ
  deriving DecidableEq, Repr

/-- What `pipeline.match_resume_to_job` returns, as read by
`compare_resume_to_jobs` — the external scoring collaborator's output.
The ranker only reads these five keys. -/
structure MJMatch where
  overall_score : ℚ
  subscores : Subscores
  matched_skills : List String
  missing_skills : List SkillRequirement
  recommendation : String
  deriving DecidableEq, Repr

/-- One per-job record of the comparison (`job_id`, a fresh UUID when
absent, carries no algorithmic content and is not modelled; `rank` is
attached separately after sorting).  An error record stores
`subscores = {}` (here `none`) and the captured message in `error`. -/
structure MJRecord where
  job_title : String
  job_company : Option String
  overall_score : ℚ
  subscores : Option Subscores
  matched_skills : List String
  missing_skills : List SkillRequirement
  recommendation : String
  error : Option String
  deriving DecidableEq, Repr

/-- The `try/except` body of the per-job loop of
`compare_resume_to_jobs`: a successful score is copied into the record,
any raised exception yields the zero-score record with
`recommendation='error'` and the message captured. -/
def mjRecordOf (score_fn : Job → Except String MJMatch) (job : Job) : MJRecord :=
  match score_fn job with
  | .ok m => ⟨job.title, job.company, m.overall_score, some m.subscores,
      m.matched_skills, m.missing_skills, m.recommendation, none⟩
  | .error e => ⟨job.title, job.company, 0, none, [], [], "error", some e⟩

/-- The per-job field validation loop of `compare_resume_to_jobs`
(lines 36–40): the first job with a falsy `title` or `description`
raises, naming the 1-based index. -/
def validateJobs : Nat → List Job → Except String Unit
  | _, [] => .ok ()
  | i, j :: rest =>
    if j.title = "" then
      .error ("Job " ++ toString (i + 1) ++ " missing \x27title\x27 field")
    else if j.description = "" then
      .error ("Job " ++ toString (i + 1) ++ " missing \x27description\x27 field")
    else validateJobs (i + 1) rest

/-- The sort-and-rank epilogue shared verbatim by
`compare_resume_to_jobs` (multi_job_matcher.py lines 80–85) and
`batch_process_resumes` (batch_processor.py lines 124–129):
`results.sort(key=lambda x: x.get('overall_score', 0), reverse=True)`
— Python's stable sort, modelled by `mergeSort` with the reversed
comparison — followed by `result['rank'] = i + 1` over the sorted list. -/
def rankDescending {α : Type} (score : α → ℚ) (l : List α) : List (α × Nat) :=
  ((l.mergeSort (fun a b => decide (score b ≤ score a))).enum).map
    (fun p => (p.2, p.1 + 1))

/-- The `best_match` summary of rank 1. -/
structure BestMatch where
  rank : Nat
  job_title : String
  overall_score : ℚ
  deriving DecidableEq, Repr

/-- The comparison response (`comparison_id`, `resume_id` and
`timestamp` are request-scoped identifiers and are not modelled). -/
structure ComparisonResult where
  num_jobs_compared : Nat
  best_match : Option BestMatch
  results : List (MJRecord × Nat)
  deriving DecidableEq, Repr

/-- `compare_resume_to_jobs` of `src/src/matching/multi_job_matcher.py`:
count validation, per-job field validation, one record per job with
per-job exception isolation, stable descending sort, dense 1-based
ranks, and the rank-1 `best_match` summary.  The external scoring path
(`ScreeningPipeline.match_resume_to_job`) is the `score_fn` parameter;
a raised exception is its `.error` value. -/
def compare_resume_to_jobs (score_fn : Job → Except String MJMatch)
    (job_descriptions : List Job) (max_jobs : Nat := 5) :
    Except String ComparisonResult :=
  if job_descriptions.length < 2 then
    .error "Minimum 2 jobs required for comparison"
  else if job_descriptions.length > max_jobs then
    .error ("Maximum " ++ toString max_jobs ++ " jobs allowed, got " ++
      toString job_descriptions.length)
  else
    match validateJobs 0 job_descriptions with
    | .error e => .error e
    | .ok _ =>
      let ranked := rankDescending (fun r => r.overall_score)
        (job_descriptions.map (mjRecordOf score_fn))
      let best_match := match ranked.head? with
        | some best => some ⟨1, best.1.job_title, best.1.overall_score⟩
        | none => none
      .ok ⟨ranked.length, best_match, ranked⟩

/-- `Sum` projections used to split the per-item outcomes into the
success and failure lists. -/
def sumLeft? {α β : Type} : Sum α β → Option α
  | .inl a => some a
  | .inr _ => none

/-- Companion of `sumLeft?` for the failure side. -/
def sumRight? {α β : Type} : Sum α β → Option β
  | .inl _ => none
  | .inr b => some b

/-- The exception classes the batch processor's `except` clauses
distinguish: `FileNotFoundError`, `ValueError`, and everything else. -/
inductive PyError where
  | fileNotFound (msg : String)
  | valueError (msg : String)
  | other (msg : String)
  deriving DecidableEq, Repr

/-- The file system as read by `batch_process_resumes`:
`Path(p).exists()` and `Path(p).stat().st_size`. -/
structure FS where
  filePresent : String → Bool
  size : String → Nat

/-- Splitting a character list at a separator character, the engine of
the path manipulations below (structural recursion, so that concrete
witnesses evaluate inside the kernel). -/
def splitOnCharAux (c : Char) : List Char → List Char → List (List Char)
  | acc, [] => [acc.reverse]
  | acc, x :: xs =>
    if x = c then acc.reverse :: splitOnCharAux c [] xs
    else splitOnCharAux c (x :: acc) xs

/-- A string split at every occurrence of a separator character. -/
def splitOnChar (c : Char) (s : String) : List String :=
  (splitOnCharAux c [] s.data).map String.mk

/-- `Path(p).name`: the final path component. -/
def pathName (p : String) : String := ((splitOnChar '/' p).getLast?).getD ""

/-- `Path(p).suffix`: the final extension of the name component,
including its dot; empty for a name without a dot and for a bare
leading-dot name such as `.bashrc`. -/
def pathSuffix (p : String) : String :=
  let parts := splitOnChar '.' (pathName p)
  if parts.length ≤ 1 then ""
  else if parts.length = 2 ∧ parts.headI = "" then ""
  else "." ++ ((parts.getLast?).getD "")

/-- Whether the needle occurs as a contiguous run at the front of the
haystack. -/
def startsWithChars : List Char → List Char → Bool
  | [], _ => true
  | _ :: _, [] => false
  | x :: xs, y :: ys => x = y && startsWithChars xs ys

/-- Whether the needle occurs anywhere in the haystack. -/
def containsChars (needle : List Char) : List Char → Bool
  | [] => startsWithChars needle []
  | y :: ys => startsWithChars needle (y :: ys) || containsChars needle ys

/-- Python's `'pdf' in s`: the substring test used to classify unknown
errors. -/
def hasPdfSubstring (s : String) : Bool := containsChars "pdf".data s.data

/-- What `ScreeningPipeline.screen_resume` returns, as read by
`batch_process_resumes`: the candidate fields of the nested `resume`
dict and the match fields.  This is the external per-résumé processing
chain; a raised exception is the `.error` value of the `screen`
parameter. -/
structure ScreenResult where
  candidate_name : Option String
  candidate_email : Option String
  overall_score : ℚ
  subscores : Option Subscores
  matched_skills : List String
  missing_skills : List SkillRequirement
  recommendation : String
  deriving DecidableEq, Repr

/-- One successful per-résumé record (`resume_id`, a fresh UUID, is not
modelled; `rank` is attached after sorting). -/
structure BatchRecord where
  filename : String
  candidate_name : String
  candidate_email : Option String
  overall_score : ℚ
  subscores : Option Subscores
  matched_skills : List String
  missing_skills : List SkillRequirement
  recommendation : String
  deriving DecidableEq, Repr

/-- One entry of `failed_resumes`. -/
structure FailedResume where
  filename : String
  error_code : String
  error_message : String
  deriving DecidableEq, Repr

/-- The job dictionary consumed by `batch_process_resumes`: the keys it
reads (`description`, `raw_text`, `title`, `job_id`). -/
structure JobData where
  job_id : Option String
  title : Option String
  description : String
  raw_text : String
  deriving DecidableEq, Repr

/-- The `try/except` body of the per-résumé loop of
`batch_process_resumes` (lines 73–122): the existence check raises
`FileNotFoundError` (`FILE_NOT_FOUND`), the extension check raises
`ValueError` (`INVALID_FILE`), and an exception propagating out of the
processing chain is classified by its class — `FileNotFoundError` to
`FILE_NOT_FOUND`, `ValueError` to `INVALID_FILE`, anything else to
`PDF_CORRUPTED` when its lower-cased text mentions `pdf` and to
`PROCESSING_ERROR` otherwise. -/
def processResumeItem (fs : FS) (screen : String → Except PyError ScreenResult)
    (file_path : String) : Sum BatchRecord FailedResume :=
  let filename := pathName file_path
  if fs.filePresent file_path = false then
    .inr ⟨filename, "FILE_NOT_FOUND", "File not found: " ++ file_path⟩
  else if pyLower (pathSuffix file_path) ≠ ".pdf" then
    .inr ⟨filename, "INVALID_FILE", "Invalid file type: " ++ pathSuffix file_path⟩
  else
    match screen file_path with
    | .ok r =>
      .inl ⟨filename, r.candidate_name.getD "Unknown", r.candidate_email,
        r.overall_score, r.subscores, r.matched_skills, r.missing_skills,
        r.recommendation⟩
    | .error (.fileNotFound m) => .inr ⟨filename, "FILE_NOT_FOUND", m⟩
    | .error (.valueError m) => .inr ⟨filename, "INVALID_FILE", m⟩
    | .error (.other m) =>
      .inr ⟨filename,
        if hasPdfSubstring (pyLower m) then "PDF_CORRUPTED" else "PROCESSING_ERROR", m⟩

/-- The aggregate-size pre-flight loop of `batch_process_resumes`
(lines 44–48): it adds `path.stat().st_size` only for paths that exist
at check time, so a missing path contributes nothing. -/
def preflightTotalSize (fs : FS) (resume_files : List String) : Nat :=
  (resume_files.map (fun f => if fs.filePresent f then fs.size f else 0)).sum

/-- The batch response (`batch_id`, `job_id`, `timestamp` and the
wall-clock `processing_time_seconds` are request-scoped or real-time
values and are not modelled). -/
structure BatchResult where
  job_title : String
  total_resumes_uploaded : Nat
  successfully_processed : Nat
  failed_resumes : List FailedResume
  results : List (BatchRecord × Nat)
  deriving DecidableEq, Repr

/-- `batch_process_resumes` of `src/src/pipeline/batch_processor.py`:
count validation, job-description validation, the 50 MB aggregate-size
pre-flight over existing files, then the per-résumé loop collecting
successes and failures separately, the stable descending sort of the
successes and dense 1-based ranks. -/
def batch_process_resumes (fs : FS) (screen : String → Except PyError ScreenResult)
    (resume_files : List String) (job_data : JobData) (max_resumes : Nat := 10) :
    Except String BatchResult :=
  if resume_files.length < 2 then
    .error "Minimum 2 resumes required for batch processing"
  else if resume_files.length > max_resumes then
    .error ("Maximum " ++ toString max_resumes ++ " resumes allowed, got " ++
      toString resume_files.length)
  else if job_data.description = "" ∧ job_data.raw_text = "" then
    .error "Job description is required"
  else if preflightTotalSize fs resume_files > 50 * 1024 * 1024 then
    .error "Total file size exceeds 50MB limit"
  else
    let items := resume_files.map (processResumeItem fs screen)
    let results := items.filterMap sumLeft?
    let failed := items.filterMap sumRight?
    let ranked := rankDescending (fun r => r.overall_score) results
    .ok ⟨job_data.title.getD "Job Position", resume_files.length,
      results.length, failed, ranked⟩

theorem descLe_trans {α : Type} (score : α → ℚ) (x y z : α)
    (h1 : decide (score y ≤ score x) = true)
    (h2 : decide (score z ≤ score y) = true) :
    decide (score z ≤ score x) = true := by
  simp only [decide_eq_true_eq] at *
  exact le_trans h2 h1

theorem descLe_total {α : Type} (score : α → ℚ) (x y : α) :
    (decide (score y ≤ score x) || decide (score x ≤ score y)) = true := by
  simp only [Bool.or_eq_true, decide_eq_true_eq]
  exact le_total (score y) (score x)

theorem rankDescending_map_fst {α : Type} (score : α → ℚ) (l : List α) :
    (rankDescending score l).map Prod.fst =
      l.mergeSort (fun a b => decide (score b ≤ score a)) := by
  unfold rankDescending
  rw [List.map_map]
  rw [show (Prod.fst ∘ fun p : Nat × α => (p.2, p.1 + 1)) = Prod.snd from rfl]
  rw [List.enum_map_snd]

theorem rankDescending_length {α : Type} (score : α → ℚ) (l : List α) :
    (rankDescending score l).length = l.length := by
  unfold rankDescending
  simp

theorem rankDescending_ranks {α : Type} (score : α → ℚ) (l : List α) :
    (rankDescending score l).map Prod.snd = List.range' 1 l.length := by
  unfold rankDescending
  rw [List.map_map]
  rw [show (Prod.snd ∘ fun p : Nat × α => (p.2, p.1 + 1)) =
    ((fun i => 1 + i) ∘ Prod.fst) from funext fun p => by
      simp [Function.comp, Nat.add_comm]]
  rw [← List.map_map, List.enum_map_fst, List.length_mergeSort]
  rw [List.range'_eq_map_range]

theorem rankDescending_scores_sorted {α : Type} (score : α → ℚ) (l : List α) :
    ((rankDescending score l).map (fun p => score p.1)).Sorted (· ≥ ·) := by
  have h := @List.sorted_mergeSort α (fun a b => decide (score b ≤ score a))
    (descLe_trans score) (descLe_total score) l
  have hmap : (rankDescending score l).map (fun p => score p.1) =
      (l.mergeSort (fun a b => decide (score b ≤ score a))).map score := by
    rw [show (fun p : α × Nat => score p.1) = score ∘ Prod.fst from rfl]
    rw [← List.map_map, rankDescending_map_fst]
  rw [hmap]
  exact List.Pairwise.map score
    (fun a b hab => by
      simp only [decide_eq_true_eq] at hab
      exact hab) h

theorem rankDescending_stable {α : Type} (score : α → ℚ) (l : List α)
    (a b : α) (hab : [a, b].Sublist l) (heq : score a = score b) :
    [a, b].Sublist ((rankDescending score l).map Prod.fst) := by
  rw [rankDescending_map_fst]
  exact List.pair_sublist_mergeSort (descLe_trans score) (descLe_total score)
    (by simp [heq]) hab

theorem rankDescending_mem {α : Type} (score : α → ℚ) (l : List α) (x : α) :
    x ∈ (rankDescending score l).map Prod.fst ↔ x ∈ l := by
  rw [rankDescending_map_fst]
  exact List.mem_mergeSort

theorem compare_ok_results (score_fn : Job → Except String MJMatch)
    (jobs : List Job) (max_jobs : Nat) (c : ComparisonResult)
    (hok : compare_resume_to_jobs score_fn jobs max_jobs = Except.ok c) :
    c.results = rankDescending (fun r => r.overall_score)
      (jobs.map (mjRecordOf score_fn)) := by
  unfold compare_resume_to_jobs at hok
  split at hok
  · exact Except.noConfusion hok
  · split at hok
    · exact Except.noConfusion hok
    · split at hok
      · exact Except.noConfusion hok
      · rw [Except.ok.injEq] at hok
        subst hok
        rfl

theorem batch_ok_fields (fs : FS) (screen : String → Except PyError ScreenResult)
    (resume_files : List String) (job_data : JobData) (max_resumes : Nat)
    (b : BatchResult)
    (hok : batch_process_resumes fs screen resume_files job_data max_resumes =
      Except.ok b) :
    b.results = rankDescending (fun r => r.overall_score)
      ((resume_files.map (processResumeItem fs screen)).filterMap sumLeft?) ∧
    b.failed_resumes =
      (resume_files.map (processResumeItem fs screen)).filterMap sumRight? ∧
    b.successfully_processed =
      ((resume_files.map (processResumeItem fs screen)).filterMap sumLeft?).length := by
  unfold batch_process_resumes at hok
  split at hok
  · exact Except.noConfusion hok
  · split at hok
    · exact Except.noConfusion hok
    · split at hok
      · exact Except.noConfusion hok
      · split at hok
        · exact Except.noConfusion hok
        · rw [Except.ok.injEq] at hok
          subst hok
          refine ⟨?_, ?_, ?_⟩ <;> rfl

/-- C5: one job's scoring failure never aborts the comparison.  For any
accepted job list, the comparison yields exactly one record per input
job, and a job whose scoring raised is still emitted — with
`overall_score = 0`, empty subscores and skill lists,
`recommendation = 'error'` and the exception text captured. -/
theorem c5_per_job_failure_isolated (score_fn : Job → Except String MJMatch)
    (jobs : List Job) (max_jobs : Nat) (c : ComparisonResult)
    (hok : compare_resume_to_jobs score_fn jobs max_jobs = Except.ok c) :
    c.results.length = jobs.length ∧
    ∀ job ∈ jobs, ∀ e, score_fn job = Except.error e →
      (⟨job.title, job.company, 0, none, [], [], "error", some e⟩ : MJRecord) ∈
        c.results.map Prod.fst := by
  have hres := compare_ok_results score_fn jobs max_jobs c hok
  constructor
  · rw [hres, rankDescending_length, List.length_map]
  · intro job hj e he
    rw [hres, rankDescending_mem]
    have hrec : mjRecordOf score_fn job =
        ⟨job.title, job.company, 0, none, [], [], "error", some e⟩ := by
      unfold mjRecordOf
      rw [he]
    rw [← hrec]
    exact List.mem_map_of_mem _ hj

/-- Witness for C5: two concrete jobs, the first of which fails to
score; its zero-score error record appears among the emitted results. -/
theorem c5_witness_concrete :
    ∃ c, compare_resume_to_jobs
        (fun j => if j.title = "A" then Except.error "boom"
          else Except.ok ⟨1/2, ⟨1/2, 1/2⟩, [], [], "weak-match"⟩)
        [⟨none, "A", none, "descA"⟩, ⟨none, "B", none, "descB"⟩] 5 =
        Except.ok c ∧
      c.results.length = 2 ∧
      (⟨"A", none, 0, none, [], [], "error", some "boom"⟩ : MJRecord) ∈
        c.results.map Prod.fst := by
  have hex : ∃ c, compare_resume_to_jobs
      (fun j => if j.title = "A" then Except.error "boom"
        else Except.ok ⟨1/2, ⟨1/2, 1/2⟩, [], [], "weak-match"⟩)
      [⟨none, "A", none, "descA"⟩, ⟨none, "B", none, "descB"⟩] 5 =
      Except.ok c := by
    unfold compare_resume_to_jobs
    rw [if_neg (by decide), if_neg (by decide)]
    rw [show validateJobs 0 [⟨none, "A", none, "descA"⟩, ⟨none, "B", none, "descB"⟩] =
      Except.ok () from rfl]
    exact ⟨_, rfl⟩
  obtain ⟨c, hok⟩ := hex
  have h := c5_per_job_failure_isolated _ _ _ _ hok
  exact ⟨c, hok, h.1, h.2 ⟨none, "A", none, "descA"⟩ (by decide) "boom" rfl⟩

/-- C7: in both rankers the emitted records are sorted by
`overall_score` descending; the attached ranks are dense and 1-based,
using every position `1..N` exactly once (the rank column is exactly
`[1, ..., N]`); and the sort is stable — two records in input order
with equal scores keep that order in the output. -/
theorem c7_ranking_sorted_dense_stable :
    (∀ (score_fn : Job → Except String MJMatch) (jobs : List Job)
        (max_jobs : Nat) (c : ComparisonResult),
      compare_resume_to_jobs score_fn jobs max_jobs = Except.ok c →
        ((c.results.map (fun p => p.1.overall_score)).Sorted (· ≥ ·) ∧
          c.results.map Prod.snd = List.range' 1 c.results.length ∧
          ∀ a b : MJRecord, [a, b].Sublist (jobs.map (mjRecordOf score_fn)) →
            a.overall_score = b.overall_score →
              [a, b].Sublist (c.results.map Prod.fst))) ∧
    (∀ (fs : FS) (screen : String → Except PyError ScreenResult)
        (resume_files : List String) (job_data : JobData) (max_resumes : Nat)
        (b : BatchResult),
      batch_process_resumes fs screen resume_files job_data max_resumes =
          Except.ok b →
        ((b.results.map (fun p => p.1.overall_score)).Sorted (· ≥ ·) ∧
          b.results.map Prod.snd = List.range' 1 b.results.length ∧
          ∀ x y : BatchRecord,
            [x, y].Sublist
              ((resume_files.map (processResumeItem fs screen)).filterMap sumLeft?) →
            x.overall_score = y.overall_score →
              [x, y].Sublist (b.results.map Prod.fst))) := by
  constructor
  · intro score_fn jobs max_jobs c hok
    have hres := compare_ok_results score_fn jobs max_jobs c hok
    refine ⟨?_, ?_, ?_⟩
    · rw [hres]
      exact rankDescending_scores_sorted _ _
    · rw [hres, rankDescending_ranks, rankDescending_length]
    · intro a b hab heq
      rw [hres]
      exact rankDescending_stable _ _ a b hab heq
  · intro fs screen resume_files job_data max_resumes b hok
    have hres := (batch_ok_fields fs screen resume_files job_data max_resumes b hok).1
    refine ⟨?_, ?_, ?_⟩
    · rw [hres]
      exact rankDescending_scores_sorted _ _
    · rw [hres, rankDescending_ranks, rankDescending_length]
    · intro x y hxy heq
      rw [hres]
      exact rankDescending_stable _ _ x y hxy heq

/-- Witness for C7: the concrete two-job comparison of the C5 scenario
has a sorted score column and rank column exactly `[1, 2]`. -/
theorem c7_witness_concrete :
    ∃ c, compare_resume_to_jobs
        (fun j => if j.title = "A" then Except.error "boom"
          else Except.ok ⟨1/2, ⟨1/2, 1/2⟩, [], [], "weak-match"⟩)
        [⟨none, "A", none, "descA"⟩, ⟨none, "B", none, "descB"⟩] 5 =
        Except.ok c ∧
      (c.results.map (fun p => p.1.overall_score)).Sorted (· ≥ ·) ∧
      c.results.map Prod.snd = List.range' 1 c.results.length := by
  have hex : ∃ c, compare_resume_to_jobs
      (fun j => if j.title = "A" then Except.error "boom"
        else Except.ok ⟨1/2, ⟨1/2, 1/2⟩, [], [], "weak-match"⟩)
      [⟨none, "A", none, "descA"⟩, ⟨none, "B", none, "descB"⟩] 5 =
      Except.ok c := by
    unfold compare_resume_to_jobs
    rw [if_neg (by decide), if_neg (by decide)]
    rw [show validateJobs 0 [⟨none, "A", none, "descA"⟩, ⟨none, "B", none, "descB"⟩] =
      Except.ok () from rfl]
    exact ⟨_, rfl⟩
  obtain ⟨c, hok⟩ := hex
  have h := c7_ranking_sorted_dense_stable.1 _ _ _ _ hok
  exact ⟨c, hok, h.1, h.2.1⟩

/-- C9: the count validations fail fast.  `compare_resume_to_jobs`
rejects fewer than 2 jobs (the too-few error) and more than `max_jobs`
jobs (the too-many error naming the counts); `batch_process_resumes`
rejects fewer than 2 sources and more than `max_resumes` sources.  Each
error is returned for every possible scoring collaborator and file
system, i.e. before any per-item work is consulted. -/
theorem c9_count_validation_fails_fast :
    (∀ (score_fn : Job → Except String MJMatch) (jobs : List Job)
        (max_jobs : Nat), jobs.length < 2 →
      compare_resume_to_jobs score_fn jobs max_jobs =
        Except.error "Minimum 2 jobs required for comparison") ∧
    (∀ (score_fn : Job → Except String MJMatch) (jobs : List Job)
        (max_jobs : Nat), 2 ≤ jobs.length → jobs.length > max_jobs →
      compare_resume_to_jobs score_fn jobs max_jobs =
        Except.error ("Maximum " ++ toString max_jobs ++ " jobs allowed, got " ++
          toString jobs.length)) ∧
    (∀ (fs : FS) (screen : String → Except PyError ScreenResult)
        (resume_files : List String) (job_data : JobData) (max_resumes : Nat),
      resume_files.length < 2 →
        batch_process_resumes fs screen resume_files job_data max_resumes =
          Except.error "Minimum 2 resumes required for batch processing") ∧
    (∀ (fs : FS) (screen : String → Except PyError ScreenResult)
        (resume_files : List String) (job_data : JobData) (max_resumes : Nat),
      2 ≤ resume_files.length → resume_files.length > max_resumes →
        batch_process_resumes fs screen resume_files job_data max_resumes =
          Except.error ("Maximum " ++ toString max_resumes ++
            " resumes allowed, got " ++ toString resume_files.length)) := by
  refine ⟨?_, ?_, ?_, ?_⟩
  · intro score_fn jobs max_jobs h
    unfold compare_resume_to_jobs
    rw [if_pos h]
  · intro score_fn jobs max_jobs h1 h2
    unfold compare_resume_to_jobs
    rw [if_neg (not_lt.mpr h1), if_pos h2]
  · intro fs screen resume_files job_data max_resumes h
    unfold batch_process_resumes
    rw [if_pos h]
  · intro fs screen resume_files job_data max_resumes h1 h2
    unfold batch_process_resumes
    rw [if_neg (not_lt.mpr h1), if_pos h2]

/-- Witness for C9: one job and six jobs against the default maximum of
five; one source and eleven sources against the default maximum of
ten. -/
theorem c9_witness_concrete :
    compare_resume_to_jobs (fun _ => Except.error "")
        [⟨none, "T", none, "D"⟩] 5 =
      Except.error "Minimum 2 jobs required for comparison" ∧
    compare_resume_to_jobs (fun _ => Except.error "")
        (List.replicate 6 ⟨none, "T", none, "D"⟩) 5 =
      Except.error "Maximum 5 jobs allowed, got 6" ∧
    batch_process_resumes ⟨fun _ => false, fun _ => 0⟩
        (fun _ => Except.error (PyError.other "")) ["a.pdf"]
        ⟨none, none, "d", ""⟩ 10 =
      Except.error "Minimum 2 resumes required for batch processing" ∧
    batch_process_resumes ⟨fun _ => false, fun _ => 0⟩
        (fun _ => Except.error (PyError.other "")) (List.replicate 11 "a.pdf")
        ⟨none, none, "d", ""⟩ 10 =
      Except.error "Maximum 10 resumes allowed, got 11" := by
  have h := c9_count_validation_fails_fast
  refine ⟨h.1 _ _ _ (by decide), ?_, h.2.2.1 _ _ _ _ _ (by decide), ?_⟩
  · rw [h.2.1 _ _ _ (by simp) (by simp)]
    exact congrArg Except.error (by decide)
  · rw [h.2.2.2 _ _ _ _ _ (by simp) (by simp)]
    exact congrArg Except.error (by decide)

theorem sum_split_length {α β : Type} (l : List (Sum α β)) :
    (l.filterMap sumLeft?).length + (l.filterMap sumRight?).length = l.length := by
  induction l with
  | nil => simp
  | cons x rest ih =>
    cases x <;> simp [List.filterMap_cons, sumLeft?, sumRight?] <;> omega

theorem mem_failed_of_item (fs : FS) (screen : String → Except PyError ScreenResult)
    (resume_files : List String) (job_data : JobData) (max_resumes : Nat)
    (b : BatchResult)
    (hok : batch_process_resumes fs screen resume_files job_data max_resumes =
      Except.ok b)
    (f : String) (hf : f ∈ resume_files) (fail : FailedResume)
    (hitem : processResumeItem fs screen f = Sum.inr fail) :
    fail ∈ b.failed_resumes := by
  rw [(batch_ok_fields fs screen resume_files job_data max_resumes b hok).2.1]
  refine List.mem_filterMap.mpr
    ⟨processResumeItem fs screen f, ?_, by rw [hitem]; rfl⟩
  exact List.mem_map_of_mem _ hf

/-- C8: the per-résumé error classification of the batch processor.  A
missing file is recorded as `FILE_NOT_FOUND`; a non-PDF extension and
any `ValueError` from the chain as `INVALID_FILE`; a `FileNotFoundError`
escaping the chain as `FILE_NOT_FOUND`; any other exception as
`PDF_CORRUPTED` exactly when its lower-cased text mentions `pdf`, else
`PROCESSING_ERROR`.  Failures are collected in `failed_resumes` apart
from the successes, and every source file lands in exactly one of the
two lists — the batch completes. -/
theorem c8_batch_failure_classification (fs : FS)
    (screen : String → Except PyError ScreenResult)
    (resume_files : List String) (job_data : JobData) (max_resumes : Nat)
    (b : BatchResult)
    (hok : batch_process_resumes fs screen resume_files job_data max_resumes =
      Except.ok b) :
    (∀ f ∈ resume_files,
      (fs.filePresent f = false →
        (⟨pathName f, "FILE_NOT_FOUND", "File not found: " ++ f⟩ : FailedResume) ∈
          b.failed_resumes) ∧
      (fs.filePresent f = true → pyLower (pathSuffix f) ≠ ".pdf" →
        (⟨pathName f, "INVALID_FILE", "Invalid file type: " ++ pathSuffix f⟩ :
          FailedResume) ∈ b.failed_resumes) ∧
      (fs.filePresent f = true → pyLower (pathSuffix f) = ".pdf" →
        (∀ m, screen f = Except.error (PyError.fileNotFound m) →
          (⟨pathName f, "FILE_NOT_FOUND", m⟩ : FailedResume) ∈ b.failed_resumes) ∧
        (∀ m, screen f = Except.error (PyError.valueError m) →
          (⟨pathName f, "INVALID_FILE", m⟩ : FailedResume) ∈ b.failed_resumes) ∧
        (∀ m, screen f = Except.error (PyError.other m) →
          (⟨pathName f,
            if hasPdfSubstring (pyLower m) then "PDF_CORRUPTED" else "PROCESSING_ERROR",
            m⟩ : FailedResume) ∈ b.failed_resumes))) ∧
    b.results.length + b.failed_resumes.length = resume_files.length := by
  constructor
  · intro f hf
    refine ⟨?_, ?_, ?_⟩
    · intro hmissing
      refine mem_failed_of_item fs screen resume_files job_data max_resumes b hok
        f hf _ ?_
      simp only [processResumeItem]
      rw [if_pos hmissing]
    · intro hpresent hsuffix
      refine mem_failed_of_item fs screen resume_files job_data max_resumes b hok
        f hf _ ?_
      simp only [processResumeItem]
      rw [if_neg (by simp [hpresent]), if_pos hsuffix]
    · intro hpresent hsuffix
      refine ⟨?_, ?_, ?_⟩ <;> intro m hm <;>
        refine mem_failed_of_item fs screen resume_files job_data max_resumes b hok
          f hf _ ?_ <;>
        simp only [processResumeItem] <;>
        rw [if_neg (by simp [hpresent]), if_neg (by simp [hsuffix]), hm]
  · have hfields := batch_ok_fields fs screen resume_files job_data max_resumes b hok
    rw [hfields.1, hfields.2.1, rankDescending_length]
    rw [show resume_files.length = (resume_files.map (processResumeItem fs screen)).length
      from (List.length_map _ _).symm]
    exact sum_split_length (resume_files.map (processResumeItem fs screen))

/-- Witness for C8: a two-file batch in which `gone.pdf` does not exist
(`FILE_NOT_FOUND`) and `x.pdf` fails with an unknown error whose text
mentions the document format (`PDF_CORRUPTED`); both failures are
collected and the batch still completes with one outcome per file. -/
theorem c8_witness_concrete :
    ∃ b, batch_process_resumes ⟨fun f => f == "x.pdf", fun _ => 0⟩
        (fun _ => Except.error (PyError.other "bad PDF header"))
        ["gone.pdf", "x.pdf"] ⟨none, none, "d", ""⟩ 10 = Except.ok b ∧
      (⟨"gone.pdf", "FILE_NOT_FOUND", "File not found: gone.pdf"⟩ : FailedResume) ∈
        b.failed_resumes ∧
      (⟨"x.pdf", "PDF_CORRUPTED", "bad PDF header"⟩ : FailedResume) ∈
        b.failed_resumes ∧
      b.results.length + b.failed_resumes.length = 2 := by
  have hex : ∃ b, batch_process_resumes ⟨fun f => f == "x.pdf", fun _ => 0⟩
      (fun _ => Except.error (PyError.other "bad PDF header"))
      ["gone.pdf", "x.pdf"] ⟨none, none, "d", ""⟩ 10 = Except.ok b := by
    unfold batch_process_resumes
    rw [if_neg (by decide), if_neg (by decide), if_neg (by decide),
      if_neg (by decide)]
    exact ⟨_, rfl⟩
  obtain ⟨b, hok⟩ := hex
  have h := c8_batch_failure_classification _ _ _ _ _ _ hok
  refine ⟨b, hok, (h.1 "gone.pdf" (by decide)).1 (by decide), ?_, h.2⟩
  have h2 := ((h.1 "x.pdf" (by decide)).2.2 (by decide) (by decide)).2.2
    "bad PDF header" rfl
  rw [show (if hasPdfSubstring (pyLower "bad PDF header") then "PDF_CORRUPTED"
    else "PROCESSING_ERROR") = "PDF_CORRUPTED" from by decide] at h2
  exact h2

/-- C10: the 50 MB pre-flight sums file sizes only over source paths
that exist at check time — a nonexistent path contributes 0 bytes — so
the pre-check can pass for a batch containing missing files, and such a
file is then reported per-item as a `FILE_NOT_FOUND` failure while the
batch completes. -/
theorem c10_preflight_sums_only_existing :
    (∀ (fs : FS) (resume_files : List String),
      preflightTotalSize fs resume_files =
        ((resume_files.filter (fun f => fs.filePresent f)).map fs.size).sum) ∧
    (∀ (fs : FS) (screen : String → Except PyError ScreenResult)
        (resume_files : List String) (job_data : JobData) (max_resumes : Nat)
        (f : String),
      2 ≤ resume_files.length → resume_files.length ≤ max_resumes →
      ¬(job_data.description = "" ∧ job_data.raw_text = "") →
      preflightTotalSize fs resume_files ≤ 50 * 1024 * 1024 →
      f ∈ resume_files → fs.filePresent f = false →
      ∃ b, batch_process_resumes fs screen resume_files job_data max_resumes =
          Except.ok b ∧
        (⟨pathName f, "FILE_NOT_FOUND", "File not found: " ++ f⟩ : FailedResume) ∈
          b.failed_resumes) := by
  constructor
  · intro fs resume_files
    unfold preflightTotalSize
    induction resume_files with
    | nil => simp
    | cons f rest ih =>
      by_cases h : fs.filePresent f
      · simp [List.filter_cons, h, ih]
      · simp [List.filter_cons, h, ih]
  · intro fs screen resume_files job_data max_resumes f h1 h2 h3 h4 hf hmissing
    have hex : ∃ b, batch_process_resumes fs screen resume_files job_data
        max_resumes = Except.ok b := by
      unfold batch_process_resumes
      rw [if_neg (not_lt.mpr h1), if_neg (not_lt.mpr h2), if_neg h3,
        if_neg (not_lt.mpr h4)]
      exact ⟨_, rfl⟩
    obtain ⟨b, hok⟩ := hex
    refine ⟨b, hok, ?_⟩
    refine mem_failed_of_item fs screen resume_files job_data max_resumes b hok
      f hf _ ?_
    simp only [processResumeItem]
    rw [if_pos hmissing]

/-- Witness for C10: with only `x.pdf` present (7 bytes), the pre-flight
total over `["gone.pdf", "x.pdf"]` is 7 — the missing file contributes
nothing — the batch passes the pre-check, and `gone.pdf` is reported as
a `FILE_NOT_FOUND` per-item failure. -/
theorem c10_witness_concrete :
    preflightTotalSize ⟨fun f => f == "x.pdf", fun _ => 7⟩ ["gone.pdf", "x.pdf"] = 7 ∧
    ∃ b, batch_process_resumes ⟨fun f => f == "x.pdf", fun _ => 7⟩
        (fun _ => Except.error (PyError.other "oops"))
        ["gone.pdf", "x.pdf"] ⟨none, none, "d", ""⟩ 10 = Except.ok b ∧
      (⟨"gone.pdf", "FILE_NOT_FOUND", "File not found: gone.pdf"⟩ : FailedResume) ∈
        b.failed_resumes := by
  constructor
  · rw [c10_preflight_sums_only_existing.1 ⟨fun f => f == "x.pdf", fun _ => 7⟩
      ["gone.pdf", "x.pdf"]]
    decide
  · exact c10_preflight_sums_only_existing.2 ⟨fun f => f == "x.pdf", fun _ => 7⟩
      (fun _ => Except.error (PyError.other "oops")) ["gone.pdf", "x.pdf"]
      ⟨none, none, "d", ""⟩ 10 "gone.pdf" (by decide) (by decide) (by decide)
      (by decide) (by decide) (by decide)
